import Mathlib

/-!
Shallow embedding of the two browser modules of this repository:
`src/assets/review-banner-carousel.js` (marquee review carousel) and
`src/assets/header-hero-header.js` (sticky transparent-over-hero header).

JavaScript numbers are modelled as `ℚ` (pixel geometry, offsets, momentum)
or `ℤ` (parsed integer configuration, slide indices); DOM rectangles become
records of their `top`/`bottom` fields; strings stay `String`; missing data
attributes become `Option`.  The animation-frame scheduler is modelled as an
explicit list of pending callback ids inside the engine state.
-/

namespace RBC

/-! ## Configuration parsing (`AdvancedReviewCarousel.parseConfig`) -/

/-- Boolean data-attribute parsing: every flag in `parseConfig` is written
`element.dataset.x !== 'false'`, so it is `false` exactly when the attribute
is present with the exact string value `false`; an absent attribute
(`none`) or any other string yields `true`. -/
def parseBoolFlag (v : Option String) : Bool :=
  decide (v ≠ some "false")

/-- Integer data-attribute parsing `parseInt(...) || d`: a missing attribute
or one that parses to `0` (a falsy result, which also stands in for `NaN`)
falls back to the default `d`. -/
def parseIntOr (v : Option ℤ) (d : ℤ) : ℤ :=
  match v with
  | none => d
  | some n => if n = 0 then d else n

/-! ## Dimension measurement and velocity (`measureDimensions`) -/

/-- Total content width computed by `measureDimensions`: the sum of the
slide widths, with the gap added after every slide except the last. -/
def measureTotalWidth (gap : ℚ) : List ℚ → ℚ
  | [] => 0
  | [w] => w
  | w :: ws => w + gap + measureTotalWidth gap ws

/-- Divisor of the velocity formula, `Math.max(1, this.config.speed)`. -/
def velocityDivisor (speed : ℤ) : ℤ :=
  max 1 speed

/-- Velocity computed by `measureDimensions`:
`this.state.baseWidth / Math.max(1, this.config.speed)`. -/
def computeVelocity (baseWidth : ℚ) (speed : ℤ) : ℚ :=
  baseWidth / ((velocityDivisor speed : ℤ) : ℚ)

/-! ## Offset dynamics (`animate`, `wrapOffset`, pointer handlers) -/

/-- Wrap distance used by `wrapOffset`:
`this.state.baseWidth + (breakpoint ? gap : gapMobile)`. -/
def wrapPoint (baseWidth gap : ℚ) : ℚ :=
  baseWidth + gap

/-- The wrap-correction of `wrapOffset`: for direction `left` one wrap
distance is added back once the offset has fallen to `-wrapPoint` or below;
for any other direction one wrap distance is subtracted once the offset has
reached `wrapPoint` or above.  At most one wrap distance is moved per call. -/
def wrapOffset (direction : String) (wp offset : ℚ) : ℚ :=
  if direction = "left" then
    if offset ≤ -wp then offset + wp else offset
  else
    if offset ≥ wp then offset - wp else offset

/-- Offset update of one `animate` frame before wrap-correction:
`deltaTime` is the elapsed time in seconds capped at `1/30`, the directional
sign is `-1` for `left` and `1` otherwise, negated again under RTL text
direction, and `velocity * deltaTime` is added to the offset. -/
def animateOffsetStep (direction : String) (rtl : Bool) (velocity elapsed offset : ℚ) : ℚ :=
  let deltaTime := min elapsed (1/30)
  let dir : ℚ := if direction = "left" then -1 else 1
  let rtlMultiplier : ℚ := if rtl then -1 else 1
  offset + dir * rtlMultiplier * velocity * deltaTime

/-- Offset after one full `animate` frame: the velocity step followed by
`wrapOffset`. -/
def animateFrame (direction : String) (rtl : Bool) (velocity elapsed wp offset : ℚ) : ℚ :=
  wrapOffset direction wp (animateOffsetStep direction rtl velocity elapsed offset)

/-- Offset update of `handlePointerMove`: the pointer delta is added
directly to the offset with no wrap-correction. -/
def pointerMoveOffset (offset deltaX : ℚ) : ℚ :=
  offset + deltaX

/-! ## Momentum (`handlePointerUp`, `addMomentum`) -/

/-- Initial momentum of `addMomentum`:
`(this.state.lastX - this.state.startX) * 0.1`. -/
def dragVelocity (startX lastX : ℚ) : ℚ :=
  (lastX - startX) * (0.1 : ℚ)

/-- Momentum value checked at the start of the `n`-th iteration of the
`momentumAnimation` loop: each completed iteration multiplies the momentum
by the friction factor `0.95`. -/
def momentumAt (v : ℚ) (n : ℕ) : ℚ :=
  v * (0.95 : ℚ) ^ n

/-- The friction sequence eventually drops below the stop threshold `0.1`,
so the `momentumAnimation` loop terminates. -/
theorem momentum_vanishes (v : ℚ) : ∃ n : ℕ, |momentumAt v n| < (0.1 : ℚ) := by
  rcases eq_or_ne v 0 with hv | hv
  · exact ⟨0, by simp [momentumAt, hv]; norm_num⟩
  · have hav : (0 : ℚ) < |v| := abs_pos.mpr hv
    have hx : (0 : ℚ) < (0.1 : ℚ) / |v| := by positivity
    obtain ⟨n, hn⟩ := exists_pow_lt_of_lt_one hx (by norm_num : (0.95 : ℚ) < 1)
    refine ⟨n, ?_⟩
    have hpow : (0 : ℚ) ≤ (0.95 : ℚ) ^ n := by positivity
    have : |v| * (0.95 : ℚ) ^ n < |v| * ((0.1 : ℚ) / |v|) := by
      exact mul_lt_mul_of_pos_left hn hav
    rw [mul_div_cancel₀ _ (ne_of_gt hav)] at this
    calc |momentumAt v n| = |v| * (0.95 : ℚ) ^ n := by
          rw [momentumAt, abs_mul, abs_pow, abs_of_nonneg (by norm_num : (0:ℚ) ≤ 0.95)]
      _ < (0.1 : ℚ) := this

/-- Number of offset-updating iterations performed by the
`momentumAnimation` loop: the least `n` at which the momentum magnitude has
fallen below the stop threshold `0.1`. -/
def momentumFrames (v : ℚ) : ℕ :=
  Nat.find (momentum_vanishes v)

/-- `handlePointerUp` momentum gate: `addMomentum` runs (and produces its
frames) only when the drag distance `|lastX - startX|` exceeds `50`. -/
def momentumFramesAfterRelease (startX lastX : ℚ) : ℕ :=
  if 50 < |lastX - startX| then momentumFrames (dragVelocity startX lastX) else 0

/-! ## Discrete navigation (`clamp`, `navigateTo`, `handleKeyDown`) -/

/-- The top-level helper `clamp(value, min, max) = Math.max(min, Math.min(max, value))`. -/
def clamp (value lo hi : ℤ) : ℤ :=
  max lo (min hi value)

/-- Argument of `navigateTo`: an explicit slide index or a relative step. -/
inductive NavDirection where
  | idx (n : ℤ)
  | prevSlide
  | nextSlide
deriving DecidableEq

/-- Resulting slide index of `navigateTo`: the target (explicit index, or
current index ∓ 1) clamped to `[0, slides.length - 1]`; the stored index is
replaced only when the clamped target differs from the current index, which
yields the clamped target either way. -/
def navigateTo (cur : ℤ) (numSlides : ℕ) (d : NavDirection) : ℤ :=
  let raw := match d with
    | .idx n => n
    | .prevSlide => cur - 1
    | .nextSlide => cur + 1
  let target := clamp raw 0 ((numSlides : ℤ) - 1)
  if target ≠ cur then target else cur

/-- Slide index after `handleKeyDown`: ArrowLeft and ArrowRight navigate by
∓1, Home navigates to index `0`, End to index `slides.length - 1`; every
other key leaves the index unchanged. -/
def handleKeyDownIndex (key : String) (cur : ℤ) (numSlides : ℕ) : ℤ :=
  if key = "ArrowLeft" then navigateTo cur numSlides .prevSlide
  else if key = "ArrowRight" then navigateTo cur numSlides .nextSlide
  else if key = "Home" then navigateTo cur numSlides (.idx 0)
  else if key = "End" then navigateTo cur numSlides (.idx ((numSlides : ℤ) - 1))
  else cur

/-! ## Engine play/pause state machine (`play`, `pause`, `resume`,
`animate` scheduling, space key) -/

/-- Engine state relevant to loop management.  `initDone` models
`state.initialized`, `pending` the ids of animation-frame callbacks
currently scheduled with the browser, `animationId` the stored
`state.animationId`, and `nextId` the next id `requestAnimationFrame`
hands out. -/
structure EngineState where
  initDone : Bool
  playing : Bool
  reducedMotion : Bool
  autoplay : Bool
  visible : Bool
  animationId : Option ℕ
  pending : List ℕ
  nextId : ℕ
deriving DecidableEq

/-- Effect of `requestAnimationFrame(this.animate)` inside `animate`: a
fresh callback id is scheduled and stored in `state.animationId`. -/
def requestFrame (s : EngineState) : EngineState :=
  { s with animationId := some s.nextId,
           pending := s.pending ++ [s.nextId],
           nextId := s.nextId + 1 }

/-- Scheduling effect of one `animate` call: it returns immediately when
not playing, otherwise it schedules the next frame.  (The offset update the
call also performs is modelled separately by `animateFrame`.) -/
def animateCall (s : EngineState) : EngineState :=
  if s.playing then requestFrame s else s

/-- `play()`: returns unchanged unless initialized, not already playing and
not reduced-motion; otherwise sets `playing` and calls `animate`, which
schedules the single frame callback of the new loop. -/
def play (s : EngineState) : EngineState :=
  if !s.initDone || s.playing || s.reducedMotion then s
  else animateCall { s with playing := true }

/-- `pause()`: a no-op when not playing; otherwise clears `playing` and
cancels the stored animation-frame callback, removing it from the
scheduler's pending list. -/
def pause (s : EngineState) : EngineState :=
  if !s.playing then s
  else
    let s' := { s with playing := false }
    match s'.animationId with
    | some id => { s' with pending := s'.pending.filter (fun i => i ≠ id),
                           animationId := none }
    | none => s'

/-- `resume()`: plays again only when autoplay is configured, not already
playing, the element is visible and reduced motion is off. -/
def resume (s : EngineState) : EngineState :=
  if !s.autoplay || s.playing || !s.visible || s.reducedMotion then s
  else play s

/-- Space-key branch of `handleKeyDown`:
`this.state.playing ? this.pause() : this.resume()`. -/
def spaceKeyToggle (s : EngineState) : EngineState :=
  if s.playing then pause s else resume s

/-! ## Instance registry (`instances`, `destroyCarousel`) -/

/-- Module state containing the element→instance registry (the `instances`
WeakMap, with elements as numeric keys) and the stream of events dispatched
to the DOM. -/
structure CarouselSystem where
  instances : List (ℕ × EngineState)
  events : List (ℕ × String)
deriving DecidableEq

/-- Registry lookup `instances.get(element)`. -/
def instancesGet (elem : ℕ) (sys : CarouselSystem) : Option EngineState :=
  (sys.instances.find? (fun p => p.1 = elem)).map (fun p => p.2)

/-- Effect of `instance.destroy()` on the engine state: it pauses the
instance (cancelling any pending frame); observer disconnection, class and
clone cleanup act on the DOM, and the dispatched `destroy` event is recorded
by the caller. -/
def destroyInstance (s : EngineState) : EngineState :=
  pause s

/-- `destroyCarousel(element)`: looks the element up in the registry; when
an instance exists it is destroyed (dispatching a `destroy` event) and its
entry deleted, otherwise nothing happens. -/
def destroyCarousel (elem : ℕ) (sys : CarouselSystem) : CarouselSystem :=
  match sys.instances.find? (fun p => p.1 = elem) with
  | some _ =>
      { instances := sys.instances.filter (fun p => p.1 ≠ elem),
        events := sys.events ++ [(elem, "destroy")] }
  | none => sys

end RBC

namespace HeaderHero

/-- The `top` and `bottom` fields of a `getBoundingClientRect()` result. -/
structure DOMRect where
  top : ℚ
  bottom : ℚ
deriving DecidableEq

/-- Overlap predicate of `updateState`:
`heroRect && heroRect.top < headerRect.bottom && heroRect.bottom > headerRect.top`;
`none` models a page without a hero region, where the result is falsy. -/
def overlapping (heroRect : Option DOMRect) (headerRect : DOMRect) : Bool :=
  match heroRect with
  | none => false
  | some h => decide (h.top < headerRect.bottom) && decide (h.bottom > headerRect.top)

/-- The three class toggles `updateState` writes: `is-transparent` and
`is-solid` on the wrapper and `header-overlap` on the document root. -/
structure HeaderVisual where
  isTransparent : Bool
  isSolid : Bool
  headerOverlap : Bool
deriving DecidableEq

/-- Class updates of `updateState`: overlap adds `is-transparent` and
`header-overlap` and removes `is-solid`; otherwise the reverse. -/
def updateState (heroRect : Option DOMRect) (headerRect : DOMRect)
    (prev : HeaderVisual) : HeaderVisual :=
  if overlapping heroRect headerRect then
    { prev with isTransparent := true, isSolid := false, headerOverlap := true }
  else
    { prev with isTransparent := false, isSolid := true, headerOverlap := false }

end HeaderHero

/-! ## Claim theorems -/

/-- C2: with a hero region present, the overlap flag is true iff the hero's
top edge is above the header's bottom edge and the hero's bottom edge is
below the header's top edge; overlap puts the header in the transparent
visual state, otherwise in the solid visual state. -/
theorem header_overlap_iff_and_visual_state (h r : HeaderHero.DOMRect)
    (prev : HeaderHero.HeaderVisual) :
    (HeaderHero.overlapping (some h) r = true ↔
      (h.top < r.bottom ∧ h.bottom > r.top)) ∧
    (HeaderHero.overlapping (some h) r = true →
      HeaderHero.updateState (some h) r prev =
        { isTransparent := true, isSolid := false, headerOverlap := true }) ∧
    (HeaderHero.overlapping (some h) r = false →
      HeaderHero.updateState (some h) r prev =
        { isTransparent := false, isSolid := true, headerOverlap := false }) := by
  refine ⟨?_, ?_, ?_⟩
  · simp [HeaderHero.overlapping, gt_iff_lt]
  · intro hov
    simp [HeaderHero.updateState, hov]
  · intro hov
    simp [HeaderHero.updateState, hov]

/-- C2 witness: the spec's example geometry (hero from 0 to 500, header
from 0 to 80) overlaps and produces the transparent state. -/
theorem header_overlap_iff_and_visual_state_witness :
    HeaderHero.overlapping (some ⟨0, 500⟩) ⟨0, 80⟩ = true ∧
    HeaderHero.updateState (some ⟨0, 500⟩) ⟨0, 80⟩ ⟨false, true, false⟩ =
      { isTransparent := true, isSolid := false, headerOverlap := true } := by
  have hov : HeaderHero.overlapping (some ⟨0, 500⟩) ⟨0, 80⟩ = true := by decide
  exact ⟨hov, (header_overlap_iff_and_visual_state ⟨0, 500⟩ ⟨0, 80⟩
    ⟨false, true, false⟩).2.1 hov⟩

/-- C8: the divisor of the velocity formula is at least 1 (hence nonzero)
for every configured speed, and with no slides (total measured width 0) the
velocity computes to the safe value 0. -/
theorem velocity_divisor_safe (speed : ℤ) (gap : ℚ) :
    1 ≤ RBC.velocityDivisor speed ∧
    ((RBC.velocityDivisor speed : ℤ) : ℚ) ≠ 0 ∧
    RBC.computeVelocity (RBC.measureTotalWidth gap []) speed = 0 := by
  have h1 : (1 : ℤ) ≤ RBC.velocityDivisor speed := le_max_left 1 speed
  refine ⟨h1, ?_, ?_⟩
  · have h0 : RBC.velocityDivisor speed ≠ 0 := by omega
    exact_mod_cast h0
  · simp [RBC.computeVelocity, RBC.measureTotalWidth]

/-- C9: destroying the same element twice through the registry is a no-op
the second time: the registry, the instances and the dispatched events are
exactly those after the first destroy. -/
theorem destroy_twice_noop (elem : ℕ) (sys : RBC.CarouselSystem) :
    RBC.destroyCarousel elem (RBC.destroyCarousel elem sys) =
      RBC.destroyCarousel elem sys := by
  rcases hfind : sys.instances.find? (fun p => p.1 = elem) with _ | inst
  · simp [RBC.destroyCarousel, hfind]
  · simp only [RBC.destroyCarousel, hfind]
    split
    · rename_i val heq
      have hp := List.find?_some heq
      have hmem := List.mem_of_find?_eq_some heq
      have hfil := (List.mem_filter.mp hmem).2
      simp only [decide_eq_true_eq] at hp
      exact absurd hp (of_decide_eq_true hfil)
    · rfl

/-- C10: every boolean configuration flag parses to `false` iff the data
attribute's value is exactly the string `false`; an absent attribute or any
other value (such as `FALSE`, `0` or `no`) parses to `true`. -/
theorem parse_flag_false_iff (v : Option String) :
    (RBC.parseBoolFlag v = false ↔ v = some "false") ∧
    RBC.parseBoolFlag none = true ∧
    RBC.parseBoolFlag (some "FALSE") = true ∧
    RBC.parseBoolFlag (some "0") = true ∧
    RBC.parseBoolFlag (some "no") = true := by
  refine ⟨?_, by decide, by decide, by decide, by decide⟩
  simp [RBC.parseBoolFlag]

/-- C10 witness: the attribute value `false` is the one value parsed to
`false`. -/
theorem parse_flag_false_iff_witness :
    RBC.parseBoolFlag (some "false") = false :=
  (parse_flag_false_iff (some "false")).1.mpr rfl

/-- The stored-index update of `navigateTo` always results in the clamped
target, whether or not it differs from the current index. -/
theorem navigateTo_eq_clamp (cur : ℤ) (n : ℕ) (d : RBC.NavDirection) :
    RBC.navigateTo cur n d =
      RBC.clamp (match d with
        | .idx k => k
        | .prevSlide => cur - 1
        | .nextSlide => cur + 1) 0 ((n : ℤ) - 1) := by
  unfold RBC.navigateTo
  by_cases h : RBC.clamp (match d with
      | .idx k => k
      | .prevSlide => cur - 1
      | .nextSlide => cur + 1) 0 ((n : ℤ) - 1) = cur
  · simp [h]
  · simp [h]

/-- C6: with at least one slide and a current index in `[0, N-1]`, every
discrete navigation (any `navigateTo` argument and any key) leaves the
index in `[0, N-1]`; ArrowLeft and ArrowRight move it by ∓1 clamped to the
range, Home jumps to `0` and End jumps to `N-1`. -/
theorem keyboard_navigation_in_range (numSlides : ℕ) (cur : ℤ)
    (hn : 1 ≤ numSlides) (h0 : 0 ≤ cur) (h1 : cur ≤ (numSlides : ℤ) - 1) :
    (∀ d : RBC.NavDirection, 0 ≤ RBC.navigateTo cur numSlides d ∧
        RBC.navigateTo cur numSlides d ≤ (numSlides : ℤ) - 1) ∧
    (∀ key : String, 0 ≤ RBC.handleKeyDownIndex key cur numSlides ∧
        RBC.handleKeyDownIndex key cur numSlides ≤ (numSlides : ℤ) - 1) ∧
    RBC.handleKeyDownIndex "ArrowLeft" cur numSlides = max 0 (cur - 1) ∧
    RBC.handleKeyDownIndex "ArrowRight" cur numSlides =
      min ((numSlides : ℤ) - 1) (cur + 1) ∧
    RBC.handleKeyDownIndex "Home" cur numSlides = 0 ∧
    RBC.handleKeyDownIndex "End" cur numSlides = (numSlides : ℤ) - 1 := by
  have hn' : (1 : ℤ) ≤ (numSlides : ℤ) := by exact_mod_cast hn
  have hb : ∀ d : RBC.NavDirection, 0 ≤ RBC.navigateTo cur numSlides d ∧
      RBC.navigateTo cur numSlides d ≤ (numSlides : ℤ) - 1 := by
    intro d
    rw [navigateTo_eq_clamp]
    cases d <;> simp only [RBC.clamp] <;> omega
  have hAL : RBC.handleKeyDownIndex "ArrowLeft" cur numSlides =
      RBC.navigateTo cur numSlides .prevSlide := rfl
  have hAR : RBC.handleKeyDownIndex "ArrowRight" cur numSlides =
      RBC.navigateTo cur numSlides .nextSlide := rfl
  have hHome : RBC.handleKeyDownIndex "Home" cur numSlides =
      RBC.navigateTo cur numSlides (.idx 0) := rfl
  have hEnd : RBC.handleKeyDownIndex "End" cur numSlides =
      RBC.navigateTo cur numSlides (.idx ((numSlides : ℤ) - 1)) := rfl
  refine ⟨hb, ?_, ?_, ?_, ?_, ?_⟩
  · intro key
    unfold RBC.handleKeyDownIndex
    split_ifs <;> first | exact hb _ | exact ⟨h0, h1⟩
  · rw [hAL, navigateTo_eq_clamp]
    simp only [RBC.clamp]
    omega
  · rw [hAR, navigateTo_eq_clamp]
    simp only [RBC.clamp]
    omega
  · rw [hHome, navigateTo_eq_clamp]
    simp only [RBC.clamp]
    omega
  · rw [hEnd, navigateTo_eq_clamp]
    simp only [RBC.clamp]
    omega

/-- C6 witness: with 3 slides and current index 1, the End key navigates to
index 2. -/
theorem keyboard_navigation_in_range_witness :
    RBC.handleKeyDownIndex "End" 1 3 = (3 : ℤ) - 1 :=
  (keyboard_navigation_in_range 3 1 (by decide) (by decide) (by decide)).2.2.2.2.2

/-- C3: calling `play()` while already playing returns the state unchanged
(no second loop is scheduled), and `play()` immediately followed by
`pause()` leaves no pending scheduled frame callback. -/
theorem play_single_loop (s : RBC.EngineState) :
    (s.playing = true → RBC.play s = s) ∧
    (s.pending = [] → (RBC.pause (RBC.play s)).pending = []) := by
  obtain ⟨i, p, r, a, vis, aid, pend, nid⟩ := s
  constructor
  · intro hp
    subst hp
    simp [RBC.play]
  · intro hpend
    subst hpend
    cases p <;> cases i <;> cases r <;> rcases aid with _ | id <;>
      simp [RBC.play, RBC.pause, RBC.animateCall, RBC.requestFrame]

/-- C3 witness: on a playing instance with an empty scheduler, `play` is a
no-op and `play` followed by `pause` leaves the scheduler empty. -/
theorem play_single_loop_witness :
    RBC.play (⟨true, true, false, true, true, some 0, [], 1⟩ : RBC.EngineState) =
      (⟨true, true, false, true, true, some 0, [], 1⟩ : RBC.EngineState) ∧
    (RBC.pause (RBC.play
      (⟨true, true, false, true, true, some 0, [], 1⟩ : RBC.EngineState))).pending = [] :=
  ⟨(play_single_loop _).1 rfl, (play_single_loop _).2 rfl⟩

/-- C7 counterexample: an initialized, paused instance with autoplay
disabled stays paused after the space key, because the space key's paused
branch calls `resume()`, which is guarded by the autoplay flag — so space
does not toggle back to playing as the claim states. -/
theorem space_key_claim_false :
    (⟨true, false, false, false, true, none, [], 0⟩ : RBC.EngineState).initDone = true ∧
    (⟨true, false, false, false, true, none, [], 0⟩ : RBC.EngineState).playing = false ∧
    ¬ (RBC.spaceKeyToggle
        (⟨true, false, false, false, true, none, [], 0⟩ : RBC.EngineState)).playing = true := by
  refine ⟨rfl, rfl, ?_⟩
  decide

/-- C7 amended: the space key always pauses a playing instance; a paused
instance becomes playing again iff it is initialized, autoplay is enabled,
the element is visible and reduced motion is off (the guards of `resume()`
and `play()`) — otherwise space leaves it paused. -/
theorem space_key_toggle_behavior (s : RBC.EngineState) :
    (s.playing = true → (RBC.spaceKeyToggle s).playing = false) ∧
    (s.playing = false →
      ((RBC.spaceKeyToggle s).playing = true ↔
        (s.initDone = true ∧ s.autoplay = true ∧ s.visible = true ∧
         s.reducedMotion = false))) := by
  obtain ⟨i, p, r, a, vis, aid, pend, nid⟩ := s
  constructor
  · intro hp
    subst hp
    rcases aid with _ | id <;>
      simp [RBC.spaceKeyToggle, RBC.pause]
  · intro hp
    subst hp
    cases i <;> cases r <;> cases a <;> cases vis <;>
      simp [RBC.spaceKeyToggle, RBC.resume, RBC.play, RBC.animateCall,
            RBC.requestFrame]

/-- C7 amended witness: with autoplay on, visibility and initialization
done and reduced motion off, space on a paused instance starts playing. -/
theorem space_key_toggle_behavior_witness :
    (RBC.spaceKeyToggle
      (⟨true, false, false, true, true, none, [], 0⟩ : RBC.EngineState)).playing = true :=
  ((space_key_toggle_behavior _).2 rfl).mpr ⟨rfl, rfl, rfl, rfl⟩

/-- C4: momentum frames are produced after pointer-up if and only if the
drag displacement `|lastX - startX|` exceeds 50 units; at or below 50 units
zero momentum frames are produced. -/
theorem momentum_iff_drag_threshold (startX lastX : ℚ) :
    0 < RBC.momentumFramesAfterRelease startX lastX ↔ 50 < |lastX - startX| := by
  unfold RBC.momentumFramesAfterRelease
  by_cases h : 50 < |lastX - startX|
  · rw [if_pos h]
    refine ⟨fun _ => h, fun _ => ?_⟩
    rw [RBC.momentumFrames, Nat.find_pos]
    intro hc
    rw [RBC.momentumAt, pow_zero, mul_one, RBC.dragVelocity, abs_mul,
        abs_of_pos (by norm_num : (0 : ℚ) < (0.1 : ℚ))] at hc
    nlinarith
  · rw [if_neg h]
    simp [h]

/-- C4 witness: a drag of 80 units exceeds the 50-unit threshold and
produces at least one momentum frame. -/
theorem momentum_iff_drag_threshold_witness :
    (50 : ℚ) < |(80 : ℚ) - 0| ∧ 0 < RBC.momentumFramesAfterRelease 0 80 :=
  ⟨by simp; decide, (momentum_iff_drag_threshold 0 80).mpr (by simp; decide)⟩

/-- C5: for a drag over the 50-unit threshold, the momentum magnitude
strictly decreases from frame to frame (friction factor 0.95 < 1), the loop
terminates at the frame count given by `momentumFrames` — where the
magnitude has fallen below the stop threshold 0.1 — and before that count
the magnitude is still at or above the threshold. -/
theorem momentum_decreasing_and_terminating (startX lastX : ℚ)
    (h : 50 < |lastX - startX|) :
    (∀ n : ℕ, |RBC.momentumAt (RBC.dragVelocity startX lastX) (n + 1)| <
        |RBC.momentumAt (RBC.dragVelocity startX lastX) n|) ∧
    |RBC.momentumAt (RBC.dragVelocity startX lastX)
        (RBC.momentumFrames (RBC.dragVelocity startX lastX))| < (0.1 : ℚ) ∧
    (∀ m : ℕ, m < RBC.momentumFrames (RBC.dragVelocity startX lastX) →
        ¬ |RBC.momentumAt (RBC.dragVelocity startX lastX) m| < (0.1 : ℚ)) := by
  have hv : RBC.dragVelocity startX lastX ≠ 0 := by
    rw [RBC.dragVelocity]
    intro hc
    rcases mul_eq_zero.mp hc with h1 | h1
    · rw [h1, abs_zero] at h
      norm_num at h
    · norm_num at h1
  have hav : 0 < |RBC.dragVelocity startX lastX| := abs_pos.mpr hv
  refine ⟨?_, ?_, ?_⟩
  · intro n
    rw [RBC.momentumAt, RBC.momentumAt, abs_mul, abs_mul, abs_pow, abs_pow,
        abs_of_pos (by norm_num : (0 : ℚ) < (0.95 : ℚ))]
    exact mul_lt_mul_of_pos_left
      (pow_lt_pow_right_of_lt_one₀ (by norm_num) (by norm_num) (Nat.lt_succ_self n)) hav
  · rw [RBC.momentumFrames]
    exact Nat.find_spec (RBC.momentum_vanishes _)
  · intro m hm
    rw [RBC.momentumFrames] at hm
    exact Nat.find_min (RBC.momentum_vanishes _) hm

/-- C5 witness: the 80-unit drag of the spec's example is over the
threshold and its momentum loop reaches the sub-threshold stop state. -/
theorem momentum_decreasing_and_terminating_witness :
    (50 : ℚ) < |(80 : ℚ) - 0| ∧
    |RBC.momentumAt (RBC.dragVelocity 0 80)
        (RBC.momentumFrames (RBC.dragVelocity 0 80))| < (0.1 : ℚ) :=
  ⟨by simp; decide, (momentum_decreasing_and_terminating 0 80 (by simp; decide)).2.1⟩

/-- Specialization of `wrapOffset` to the default direction `left`. -/
theorem wrapOffset_left (wp x : ℚ) :
    RBC.wrapOffset "left" wp x = if x ≤ -wp then x + wp else x := by
  rw [RBC.wrapOffset, if_pos rfl]

/-- Specialization of the `animate` velocity step to direction `left` in
left-to-right text: the frame subtracts `velocity * deltaTime`. -/
theorem animateOffsetStep_left (v elapsed offset : ℚ) :
    RBC.animateOffsetStep "left" false v elapsed offset =
      offset - v * min elapsed (1/30) := by
  simp [RBC.animateOffsetStep]
  ring

/-- Specialization of `wrapOffset` to any non-`left` direction. -/
theorem wrapOffset_not_left (d : String) (hd : d ≠ "left") (wp x : ℚ) :
    RBC.wrapOffset d wp x = if x ≥ wp then x - wp else x := by
  rw [RBC.wrapOffset, if_neg hd]

/-- Specialization of the `animate` velocity step to a non-`left` direction
in left-to-right text: the frame adds `velocity * deltaTime`. -/
theorem animateOffsetStep_not_left (d : String) (hd : d ≠ "left")
    (v elapsed offset : ℚ) :
    RBC.animateOffsetStep d false v elapsed offset =
      offset + v * min elapsed (1/30) := by
  simp [RBC.animateOffsetStep, hd]

/-- C1 counterexample: the claimed invariant fails in two reachable ways.
(a) Pointer-drag updates the offset with no wrap-correction, and the frame
wrap-correction moves at most one wrap distance, so a 250-unit drag from
offset 0 with wrap distance 100 (content width 76, gap 24) leaves
`|offset| = 250 ≥ wrapDistance` even after `wrapOffset` runs.
(b) Under RTL text direction an autoplay frame moves the offset in the
positive direction while the `left` branch of `wrapOffset` only corrects
offsets at or below `-wrapPoint`: from the in-invariant offset `99.99` the
frame produces an offset above the wrap distance 100 that the
wrap-correction leaves uncorrected. -/
theorem wrap_invariant_fails_on_drag_and_rtl :
    RBC.wrapOffset "left" (RBC.wrapPoint 76 24) (RBC.pointerMoveOffset 0 250) = 250 ∧
    ¬ |RBC.wrapOffset "left" (RBC.wrapPoint 76 24) (RBC.pointerMoveOffset 0 250)| <
        RBC.wrapPoint 76 24 ∧
    |(9999/100 : ℚ)| < RBC.wrapPoint 76 24 ∧
    ¬ |RBC.animateFrame "left" true (RBC.computeVelocity 76 60) (1/30)
        (RBC.wrapPoint 76 24) (9999/100)| < RBC.wrapPoint 76 24 := by
  have h : RBC.wrapOffset "left" (RBC.wrapPoint 76 24)
      (RBC.pointerMoveOffset 0 250) = 250 := by
    rw [wrapOffset_left]
    norm_num [RBC.wrapPoint, RBC.pointerMoveOffset]
  have hv : RBC.computeVelocity 76 60 = 19/15 := by
    rw [RBC.computeVelocity, RBC.velocityDivisor]
    norm_num
  have hstep : RBC.animateOffsetStep "left" true (19/15) (1/30)
      (9999/100 : ℚ) = 90029/900 := by
    simp [RBC.animateOffsetStep]
    norm_num
  have hfr : RBC.animateFrame "left" true (RBC.computeVelocity 76 60) (1/30)
      (RBC.wrapPoint 76 24) (9999/100) = 90029/900 := by
    rw [RBC.animateFrame, hv, hstep, wrapOffset_left,
        if_neg (by norm_num [RBC.wrapPoint])]
  refine ⟨h, ?_, ?_, ?_⟩
  · rw [h]
    norm_num [RBC.wrapPoint]
  · rw [show |(9999/100 : ℚ)| = 9999/100 from abs_of_nonneg (by norm_num)]
    norm_num [RBC.wrapPoint]
  · rw [hfr, show |(90029/900 : ℚ)| = 90029/900 from abs_of_nonneg (by norm_num)]
    norm_num [RBC.wrapPoint]

/-- C1 amended: in left-to-right text the invariant
`0 ≤ |offset| < wrapDistance` holds for the autoplay animation frames of
every configured direction — with positive content width, nonnegative gap
and elapsed time, an offset within one wrap-period of zero on the side the
direction scrolls toward (`(-wrapDistance, 0]` for `left`,
`[0, wrapDistance)` for any other direction) stays there after the frame's
velocity step and wrap-correction.  The invariant is not maintained across
pointer-drag and momentum updates, which modify the offset without
wrap-correction, nor under RTL text direction, where autoplay moves the
offset away from the only side `wrapOffset` corrects
(see the counterexample). -/
theorem autoplay_wrap_invariant (direction : String) (baseWidth gap : ℚ)
    (speed : ℤ) (elapsed offset : ℚ)
    (hbw : 0 < baseWidth) (hg : 0 ≤ gap) (he : 0 ≤ elapsed) :
    (direction = "left" → -RBC.wrapPoint baseWidth gap < offset → offset ≤ 0 →
      (-RBC.wrapPoint baseWidth gap <
          RBC.animateFrame direction false (RBC.computeVelocity baseWidth speed)
            elapsed (RBC.wrapPoint baseWidth gap) offset ∧
        RBC.animateFrame direction false (RBC.computeVelocity baseWidth speed)
            elapsed (RBC.wrapPoint baseWidth gap) offset ≤ 0 ∧
        |RBC.animateFrame direction false (RBC.computeVelocity baseWidth speed)
            elapsed (RBC.wrapPoint baseWidth gap) offset| <
          RBC.wrapPoint baseWidth gap)) ∧
    (direction ≠ "left" → 0 ≤ offset → offset < RBC.wrapPoint baseWidth gap →
      (0 ≤ RBC.animateFrame direction false (RBC.computeVelocity baseWidth speed)
            elapsed (RBC.wrapPoint baseWidth gap) offset ∧
        RBC.animateFrame direction false (RBC.computeVelocity baseWidth speed)
            elapsed (RBC.wrapPoint baseWidth gap) offset <
          RBC.wrapPoint baseWidth gap ∧
        |RBC.animateFrame direction false (RBC.computeVelocity baseWidth speed)
            elapsed (RBC.wrapPoint baseWidth gap) offset| <
          RBC.wrapPoint baseWidth gap)) := by
  have hwp0 : 0 < RBC.wrapPoint baseWidth gap := by
    rw [RBC.wrapPoint]
    linarith
  have hd1 : (1 : ℚ) ≤ ((RBC.velocityDivisor speed : ℤ) : ℚ) := by
    have h1 : (1 : ℤ) ≤ RBC.velocityDivisor speed := le_max_left 1 speed
    exact_mod_cast h1
  have hd0 : (0 : ℚ) < ((RBC.velocityDivisor speed : ℤ) : ℚ) :=
    lt_of_lt_of_le zero_lt_one hd1
  have hv0 : 0 < RBC.computeVelocity baseWidth speed :=
    div_pos hbw hd0
  have hvle : RBC.computeVelocity baseWidth speed ≤ baseWidth := by
    rw [RBC.computeVelocity, div_le_iff₀ hd0]
    nlinarith
  have hdt0 : 0 ≤ min elapsed (1/30 : ℚ) := le_min he (by norm_num)
  have hdtc : min elapsed (1/30 : ℚ) ≤ 1/30 := min_le_right _ _
  have hs0 : 0 ≤ RBC.computeVelocity baseWidth speed * min elapsed (1/30 : ℚ) :=
    mul_nonneg hv0.le hdt0
  have hsub : RBC.computeVelocity baseWidth speed * min elapsed (1/30 : ℚ) <
      RBC.wrapPoint baseWidth gap := by
    have h1 : RBC.computeVelocity baseWidth speed * min elapsed (1/30 : ℚ) ≤
        baseWidth * (1/30 : ℚ) :=
      mul_le_mul hvle hdtc hdt0 hbw.le
    have h2 : baseWidth * (1/30 : ℚ) < RBC.wrapPoint baseWidth gap := by
      rw [RBC.wrapPoint]
      nlinarith
    linarith
  constructor
  · intro hdir hlo hhi
    subst hdir
    rw [RBC.animateFrame, animateOffsetStep_left, wrapOffset_left]
    have habs : ∀ x : ℚ, -RBC.wrapPoint baseWidth gap < x → x ≤ 0 →
        |x| < RBC.wrapPoint baseWidth gap := by
      intro x hx1 hx2
      exact abs_lt.mpr ⟨hx1, lt_of_le_of_lt hx2 hwp0⟩
    by_cases hc : offset - RBC.computeVelocity baseWidth speed *
        min elapsed (1/30 : ℚ) ≤ -RBC.wrapPoint baseWidth gap
    · rw [if_pos hc]
      have hA : -RBC.wrapPoint baseWidth gap <
          offset - RBC.computeVelocity baseWidth speed * min elapsed (1/30 : ℚ) +
            RBC.wrapPoint baseWidth gap := by
        linarith
      have hB : offset - RBC.computeVelocity baseWidth speed *
          min elapsed (1/30 : ℚ) + RBC.wrapPoint baseWidth gap ≤ 0 := by
        linarith
      exact ⟨hA, hB, habs _ hA hB⟩
    · rw [if_neg hc]
      push_neg at hc
      have hA : -RBC.wrapPoint baseWidth gap <
          offset - RBC.computeVelocity baseWidth speed * min elapsed (1/30 : ℚ) := hc
      have hB : offset - RBC.computeVelocity baseWidth speed *
          min elapsed (1/30 : ℚ) ≤ 0 := by
        linarith
      exact ⟨hA, hB, habs _ hA hB⟩
  · intro hdir h0 h1
    rw [RBC.animateFrame, animateOffsetStep_not_left direction hdir,
        wrapOffset_not_left direction hdir]
    have habs : ∀ x : ℚ, 0 ≤ x → x < RBC.wrapPoint baseWidth gap →
        |x| < RBC.wrapPoint baseWidth gap := by
      intro x hx1 hx2
      exact abs_lt.mpr ⟨by linarith, hx2⟩
    by_cases hc : offset + RBC.computeVelocity baseWidth speed *
        min elapsed (1/30 : ℚ) ≥ RBC.wrapPoint baseWidth gap
    · rw [if_pos hc]
      have hA : 0 ≤ offset + RBC.computeVelocity baseWidth speed *
          min elapsed (1/30 : ℚ) - RBC.wrapPoint baseWidth gap := by
        linarith
      have hB : offset + RBC.computeVelocity baseWidth speed *
          min elapsed (1/30 : ℚ) - RBC.wrapPoint baseWidth gap <
          RBC.wrapPoint baseWidth gap := by
        linarith
      exact ⟨hA, hB, habs _ hA hB⟩
    · rw [if_neg hc]
      push_neg at hc
      have hA : 0 ≤ offset + RBC.computeVelocity baseWidth speed *
          min elapsed (1/30 : ℚ) := by
        linarith
      exact ⟨hA, hc, habs _ hA hc⟩

/-- C1 amended witness: one autoplay frame at 60 fps on a carousel of
content width 76, gap 24, speed 60, starting from offset 0, stays within
one wrap distance of zero for direction `left` and for direction `right`. -/
theorem autoplay_wrap_invariant_witness :
    (0 : ℚ) < 76 ∧ (0 : ℚ) ≤ 24 ∧ (0 : ℚ) ≤ 1/60 ∧
    |RBC.animateFrame "left" false (RBC.computeVelocity 76 60) (1/60)
        (RBC.wrapPoint 76 24) 0| < RBC.wrapPoint 76 24 ∧
    |RBC.animateFrame "right" false (RBC.computeVelocity 76 60) (1/60)
        (RBC.wrapPoint 76 24) 0| < RBC.wrapPoint 76 24 :=
  ⟨by decide, by decide, by norm_num,
    ((autoplay_wrap_invariant "left" 76 24 60 (1/60) 0 (by decide) (by decide)
        (by norm_num)).1 rfl (by norm_num [RBC.wrapPoint]) (by decide)).2.2,
    ((autoplay_wrap_invariant "right" 76 24 60 (1/60) 0 (by decide) (by decide)
        (by norm_num)).2 (by decide) (by decide)
        (by norm_num [RBC.wrapPoint])).2.2⟩

/-- C8 witness: the default speed 60 gives divisor at least 1. -/
theorem velocity_divisor_safe_witness :
    (1 : ℤ) ≤ RBC.velocityDivisor 60 ∧ RBC.computeVelocity (RBC.measureTotalWidth 24 []) 60 = 0 :=
  ⟨(velocity_divisor_safe 60 24).1, (velocity_divisor_safe 60 24).2.2⟩

/-- C9 witness: destroying element 0 of a one-instance registry twice
equals destroying it once. -/
theorem destroy_twice_noop_witness :
    RBC.destroyCarousel 0 (RBC.destroyCarousel 0
      ⟨[(0, ⟨true, false, false, true, true, none, [], 0⟩)], []⟩) =
    RBC.destroyCarousel 0
      ⟨[(0, ⟨true, false, false, true, true, none, [], 0⟩)], []⟩ :=
  destroy_twice_noop 0 _
